import Mathlib

set_option maxRecDepth 100000

/-!
Verification of the workshop-matchmaker module (my_agent/agent.py).

The module reads a CSV roster with csv.DictReader, renders every row into a
text block (load_students_data), and builds an Agent whose instruction embeds
that block between fixed instruction text, declaring GroupsResponse as the
structured-output schema.

Embedding notes:
* The input file is modelled as the list of its lines (the claims under
  verification restrict field values to contain no newline, so one line is
  one CSV record).
* parseRecord is the Python csv default-dialect field splitter for one
  record: delimiter a comma, quote char a double quote, doubled quotes
  inside a quoted field give a literal quote, and a quote inside an
  unquoted field is literal (non-strict mode).  An empty line yields the
  empty record, which DictReader skips.
* rowDict models the row dictionary DictReader builds: dict(zip(fieldnames,
  row)) followed by filling missing trailing fields with restval = None.
  The inner Option String is the Python value (none = Python None); the
  outer Option is presence of the key (none = KeyError on lookup).
* Values are interpolated into the f-string with str(), so Python None
  renders as the text None (pyStr).
* The Python loop appends entries with data += entry; concatAll produces
  the identical string (string append is associative).
-/

namespace ADKWorkshop

inductive CsvState
  | fieldStart
  | inField
  | inQuoted
  | quoteInQuoted
deriving Repr, DecidableEq

/-- One step per character of the csv field-splitting state machine
(Python _csv reader, default dialect, non-strict).  cur holds the current
field reversed; acc holds the finished fields reversed. -/
def parseRecAux : List Char → CsvState → List Char → List String → List String
  | [], _, cur, acc => (String.mk cur.reverse :: acc).reverse
  | c :: cs, CsvState.fieldStart, cur, acc =>
      if c = '"' then parseRecAux cs CsvState.inQuoted cur acc
      else if c = ',' then parseRecAux cs CsvState.fieldStart [] ("" :: acc)
      else parseRecAux cs CsvState.inField (c :: cur) acc
  | c :: cs, CsvState.inField, cur, acc =>
      if c = ',' then parseRecAux cs CsvState.fieldStart [] (String.mk cur.reverse :: acc)
      else parseRecAux cs CsvState.inField (c :: cur) acc
  | c :: cs, CsvState.inQuoted, cur, acc =>
      if c = '"' then parseRecAux cs CsvState.quoteInQuoted cur acc
      else parseRecAux cs CsvState.inQuoted (c :: cur) acc
  | c :: cs, CsvState.quoteInQuoted, cur, acc =>
      if c = '"' then parseRecAux cs CsvState.inQuoted (c :: cur) acc
      else if c = ',' then parseRecAux cs CsvState.fieldStart [] (String.mk cur.reverse :: acc)
      else parseRecAux cs CsvState.inField (c :: cur) acc

/-- Parse one line of the file into a csv record.  A blank line yields the
empty record, as csv.reader does. -/
def parseRecord (line : String) : List String :=
  if line = "" then [] else parseRecAux line.data CsvState.fieldStart [] []

/-- Failure modes of module start-up: the open() call failing, or a KeyError
from a row-dictionary lookup. -/
inductive LoadErr
  | ioError
  | keyError (key : String)
deriving Repr, DecidableEq

/-- The dictionary DictReader builds for one row: dict(zip(fieldnames, row)),
then every fieldname beyond the row length is set to restval = None, so a
later duplicate fieldname wins.  Result: none when the key is absent
(lookup raises KeyError), some none when present with Python value None,
some (some v) when present with string value v. -/
def rowDict : List String → List String → String → Option (Option String)
  | [], _, _ => none
  | fn :: fns, row, key =>
      match rowDict fns row.tail key with
      | some v => some v
      | none => if fn = key then some row.head? else none

/-- str() of the looked-up value, as the f-string interpolation applies it:
Python None prints as the text None. -/
def pyStr : Option String → String
  | none => "None"
  | some s => s

/-- d[key] in Python: KeyError when the key is absent. -/
def ofLookup (key : String) : Option (Option String) → Except LoadErr (Option String)
  | some v => Except.ok v
  | none => Except.error (LoadErr.keyError key)

/-- The text appended for one student row (the three += lines of the loop
body in load_students_data). -/
def studentEntry (n e i l : Option String) : String :=
  "- " ++ pyStr n ++ " (" ++ pyStr e ++ ")\n" ++
  "  Interests: " ++ pyStr i ++ "\n" ++
  "  Looking to connect with: " ++ pyStr l ++ "\n\n"

/-- The four dictionary lookups the loop body performs, in evaluation
order: name, email, interests, looking_to_connect_with. -/
def rowVals (fns row : List String) :
    Option (Option String) × Option (Option String) ×
    Option (Option String) × Option (Option String) :=
  (rowDict fns row "name", rowDict fns row "email",
   rowDict fns row "interests", rowDict fns row "looking_to_connect_with")

/-- The loop body as a function of the four lookups: the first absent key
raises KeyError, otherwise the entry text is produced. -/
def entryExcept (v : Option (Option String) × Option (Option String) ×
    Option (Option String) × Option (Option String)) : Except LoadErr String := do
  let n ← ofLookup "name" v.1
  let e ← ofLookup "email" v.2.1
  let i ← ofLookup "interests" v.2.2.1
  let l ← ofLookup "looking_to_connect_with" v.2.2.2
  Except.ok (studentEntry n e i l)

/-- The loop body of load_students_data for one row dictionary. -/
def formatStudent (fns row : List String) : Except LoadErr String :=
  entryExcept (rowVals fns row)

/-- The fixed first line of the rendered roster. -/
def rosterHeader : String := "WORKSHOP ATTENDEES:\n\n"

def concatAll : List String → String
  | [] => ""
  | s :: ss => s ++ concatAll ss

/-- load_students_data on the parsed records of the file: the first record
is the DictReader fieldnames, empty records (blank lines) are skipped, each
remaining record is rendered by the loop body. -/
def loadRecords : List (List String) → Except LoadErr String
  | [] => Except.ok rosterHeader
  | fns :: rows => do
      let entries ← (rows.filter (fun r => !r.isEmpty)).mapM (formatStudent fns)
      Except.ok (rosterHeader ++ concatAll entries)

/-- load_students_data on the lines of the CSV file. -/
def load_students_data (lines : List String) : Except LoadErr String :=
  loadRecords (lines.map parseRecord)

/-- open(CSV_PATH) followed by load_students_data: none models a missing or
unreadable file, in which case the exception propagates (no handler exists
in the source). -/
def loadFromFile (file : Option (List String)) : Except LoadErr String :=
  match file with
  | none => Except.error LoadErr.ioError
  | some lines => load_students_data lines

/-- The field types occurring in the declared pydantic models. -/
inductive FieldTy
  | str
  | listStr
  | listGroup
deriving Repr, DecidableEq

/-- Field declarations of class StudentGroup(BaseModel). -/
def StudentGroupFields : List (String × FieldTy) :=
  [("group", FieldTy.listStr), ("description", FieldTy.str)]

/-- Field declarations of class GroupsResponse(BaseModel). -/
def GroupsResponseFields : List (String × FieldTy) :=
  [("groups", FieldTy.listGroup)]

structure StudentGroup where
  group : List String
  description : String
deriving Repr, DecidableEq

structure GroupsResponse where
  groups : List StudentGroup
deriving Repr, DecidableEq

/-- The schema declaration passed as output_schema: the response model's
fields together with the nested group model's fields.  It is a declaration
only; no GroupsResponse value is constructed anywhere in the module. -/
structure SchemaDecl where
  responseFields : List (String × FieldTy)
  groupFields : List (String × FieldTy)
deriving Repr, DecidableEq

def groupsResponseSchema : SchemaDecl :=
  { responseFields := GroupsResponseFields, groupFields := StudentGroupFields }

structure Agent where
  model : String
  name : String
  description : String
  instruction : String
  output_schema : SchemaDecl
deriving Repr, DecidableEq

/-- The instruction f-string text before the interpolated STUDENT_DATA
(note the trailing space after the word teams, as in the source). -/
def promptBefore : String :=
  "You are a workshop matchmaker. Group students into teams \nbased on their shared interests.\n\nRULES:\n- Create MULTIPLE groups\n- Each group should have MAXIMUM 3 people\n- Group people with similar interests together\n- Every attendee should be in at least one group\n\nHere is the data of all workshop attendees:\n\n"

/-- The instruction f-string text after the interpolated STUDENT_DATA. -/
def promptAfter : String :=
  "\n\nCreate meaningful groups and explain why each group should connect."

/-- The f-string of the instruction argument of Agent(...). -/
def buildInstruction (studentData : String) : String :=
  promptBefore ++ studentData ++ promptAfter

/-- The Agent(...) constructor call building root_agent from STUDENT_DATA. -/
def mkRootAgent (studentData : String) : Agent :=
  { model := "gemini-2.0-flash"
    name := "workshop_matchmaker"
    description := "Groups workshop attendees based on shared interests."
    instruction := buildInstruction studentData
    output_schema := groupsResponseSchema }

/-- The module top level: STUDENT_DATA = load_students_data() followed by
root_agent = Agent(...).  A load failure propagates out of module
initialisation. -/
def initModule (file : Option (List String)) : Except LoadErr Agent := do
  let d ← loadFromFile file
  Except.ok (mkRootAgent d)

/-- The exact header of a well-formed input file. -/
def requiredFields : List String :=
  ["name", "email", "interests", "looking_to_connect_with"]

/-- The rendered entry of a well-formed (four-field) row. -/
def entryOfRow (r : List String) : String :=
  "- " ++ r.getD 0 "" ++ " (" ++ r.getD 1 "" ++ ")\n" ++
  "  Interests: " ++ r.getD 2 "" ++ "\n" ++
  "  Looking to connect with: " ++ r.getD 3 "" ++ "\n\n"

end ADKWorkshop

namespace ADKWorkshop

/-- The success value of the loop body: the entry built from the four
looked-up values. -/
def okEntry (v : Option (Option String) × Option (Option String) ×
    Option (Option String) × Option (Option String)) : String :=
  studentEntry (v.1.getD none) (v.2.1.getD none) (v.2.2.1.getD none) (v.2.2.2.getD none)

lemma rowDict_eq_none_iff (fns : List String) (row : List String) (key : String) :
    rowDict fns row key = none ↔ ¬ key ∈ fns := by
  induction fns generalizing row with
  | nil => simp [rowDict]
  | cons fn fns ih =>
    simp only [rowDict]
    cases h : rowDict fns row.tail key with
    | some v =>
      have hmem : key ∈ fns := by
        by_contra hk
        rw [(ih row.tail).mpr hk] at h
        exact Option.noConfusion h
      simp [List.mem_cons, hmem]
    | none =>
      have hmem : ¬ key ∈ fns := (ih row.tail).mp h
      by_cases hfn : fn = key
      · simp [hfn, List.mem_cons]
      · simp [hfn, List.mem_cons, hmem, Ne.symm hfn]

lemma rowDict_eq_none_of_not_mem (fns row : List String) (key : String)
    (h : ¬ key ∈ fns) : rowDict fns row key = none :=
  (rowDict_eq_none_iff fns row key).mpr h

lemma rowDict_isSome_of_mem (fns row : List String) (key : String)
    (h : key ∈ fns) : ∃ v, rowDict fns row key = some v := by
  cases hv : rowDict fns row key with
  | some v => exact ⟨v, rfl⟩
  | none => exact absurd ((rowDict_eq_none_iff fns row key).mp hv) (not_not_intro h)

lemma formatStudent_ok (fns row : List String)
    (h : ∀ k ∈ requiredFields, k ∈ fns) :
    formatStudent fns row = Except.ok (okEntry (rowVals fns row)) := by
  obtain ⟨n, hn⟩ := rowDict_isSome_of_mem fns row "name" (h "name" (by simp [requiredFields]))
  obtain ⟨e, he⟩ := rowDict_isSome_of_mem fns row "email" (h "email" (by simp [requiredFields]))
  obtain ⟨i, hi⟩ := rowDict_isSome_of_mem fns row "interests" (h "interests" (by simp [requiredFields]))
  obtain ⟨l, hl⟩ := rowDict_isSome_of_mem fns row "looking_to_connect_with"
    (h "looking_to_connect_with" (by simp [requiredFields]))
  simp only [formatStudent, rowVals, hn, he, hi, hl]
  rfl

lemma mapM_ok {α β : Type} (f : α → Except LoadErr β) (g : α → β) :
    ∀ xs : List α, (∀ x ∈ xs, f x = Except.ok (g x)) →
      xs.mapM f = Except.ok (xs.map g) := by
  intro xs
  induction xs with
  | nil => intro _; rfl
  | cons x xs ih =>
    intro h
    rw [List.mapM_cons, h x (List.mem_cons_self x xs),
      ih (fun y hy => h y (List.mem_cons_of_mem x hy))]
    rfl

lemma loadRecords_keys (fns : List String) (rows : List (List String))
    (h : ∀ k ∈ requiredFields, k ∈ fns) :
    loadRecords (fns :: rows) =
      Except.ok (rosterHeader ++ concatAll ((rows.filter (fun r => !r.isEmpty)).map
        (fun r => okEntry (rowVals fns r)))) := by
  simp only [loadRecords]
  rw [mapM_ok (formatStudent fns) (fun r => okEntry (rowVals fns r)) _
    (fun r _ => formatStudent_ok fns r h)]
  rfl

lemma rowVals_req (r : List String) :
    rowVals requiredFields r =
      (some r.head?, some r.tail.head?, some r.tail.tail.head?,
       some r.tail.tail.tail.head?) := rfl

lemma okEntry_req (r : List String) (h : r.length = 4) :
    okEntry (rowVals requiredFields r) = entryOfRow r := by
  rcases r with _ | ⟨a, _ | ⟨b, _ | ⟨c, _ | ⟨d, _ | ⟨e, r⟩⟩⟩⟩⟩
  · simp at h
  · simp at h
  · simp at h
  · simp at h
  · rfl
  · simp only [List.length_cons] at h; omega

lemma load_wellformed (headerLine : String) (dataLines : List String)
    (hh : parseRecord headerLine = requiredFields)
    (hr : ∀ l ∈ dataLines, (parseRecord l).length = 4) :
    load_students_data (headerLine :: dataLines) =
      Except.ok (rosterHeader ++ concatAll (dataLines.map (fun l => entryOfRow (parseRecord l)))) := by
  show loadRecords ((headerLine :: dataLines).map parseRecord) = _
  rw [List.map_cons, hh, loadRecords_keys _ _ (fun k hk => hk)]
  have hfil : (dataLines.map parseRecord).filter (fun r => !r.isEmpty) =
      dataLines.map parseRecord := by
    rw [List.filter_eq_self]
    intro r hr2
    obtain ⟨l, hl, rfl⟩ := List.mem_map.mp hr2
    have h4 := hr l hl
    cases hre : (parseRecord l).isEmpty
    · rfl
    · rw [List.isEmpty_iff] at hre
      rw [hre] at h4
      simp at h4
  rw [hfil, List.map_map]
  have hmaps : dataLines.map ((fun r => okEntry (rowVals requiredFields r)) ∘ parseRecord) =
      dataLines.map (fun l => entryOfRow (parseRecord l)) :=
    List.map_congr_left (fun l hl => okEntry_req (parseRecord l) (hr l hl))
  rw [hmaps]

end ADKWorkshop

namespace ADKWorkshop

lemma concatAll_decomp {α : Type} (f : α → String) (x : α) :
    ∀ xs : List α, x ∈ xs → ∃ p q, concatAll (xs.map f) = p ++ f x ++ q := by
  intro xs
  induction xs with
  | nil => intro h; exact absurd h (List.not_mem_nil x)
  | cons y ys ih =>
    intro h
    rcases List.mem_cons.mp h with rfl | hmem
    · exact ⟨"", concatAll (ys.map f),
        by simp [concatAll, String.empty_append, String.append_assoc]⟩
    · obtain ⟨p, q, hpq⟩ := ih hmem
      exact ⟨f y ++ p, q, by simp [concatAll, hpq, String.append_assoc]⟩

lemma entry_field_decomp (r : List String) (j : Nat) (hj : j < 4) :
    ∃ p q, entryOfRow r = p ++ r.getD j "" ++ q := by
  interval_cases j
  · exact ⟨"- ",
      " (" ++ r.getD 1 "" ++ ")\n" ++ "  Interests: " ++ r.getD 2 "" ++ "\n" ++
        "  Looking to connect with: " ++ r.getD 3 "" ++ "\n\n",
      by simp [entryOfRow, String.append_assoc]⟩
  · exact ⟨"- " ++ r.getD 0 "" ++ " (",
      ")\n" ++ "  Interests: " ++ r.getD 2 "" ++ "\n" ++
        "  Looking to connect with: " ++ r.getD 3 "" ++ "\n\n",
      by simp [entryOfRow, String.append_assoc]⟩
  · exact ⟨"- " ++ r.getD 0 "" ++ " (" ++ r.getD 1 "" ++ ")\n" ++ "  Interests: ",
      "\n" ++ "  Looking to connect with: " ++ r.getD 3 "" ++ "\n\n",
      by simp [entryOfRow, String.append_assoc]⟩
  · exact ⟨"- " ++ r.getD 0 "" ++ " (" ++ r.getD 1 "" ++ ")\n" ++ "  Interests: " ++
        r.getD 2 "" ++ "\n" ++ "  Looking to connect with: ",
      "\n\n",
      by simp [entryOfRow, String.append_assoc]⟩

lemma formatStudent_error_of_missing (fns row : List String)
    (h : ∃ k ∈ requiredFields, ¬ k ∈ fns) :
    ∃ k ∈ requiredFields, ¬ k ∈ fns ∧
      formatStudent fns row = Except.error (LoadErr.keyError k) := by
  by_cases hn : "name" ∈ fns
  · by_cases he : "email" ∈ fns
    · by_cases hi : "interests" ∈ fns
      · by_cases hl : "looking_to_connect_with" ∈ fns
        · exfalso
          obtain ⟨k, hk, hknot⟩ := h
          simp only [requiredFields, List.mem_cons, List.not_mem_nil, or_false] at hk
          rcases hk with rfl | rfl | rfl | rfl <;> contradiction
        · obtain ⟨n, hvn⟩ := rowDict_isSome_of_mem fns row "name" hn
          obtain ⟨e, hve⟩ := rowDict_isSome_of_mem fns row "email" he
          obtain ⟨i, hvi⟩ := rowDict_isSome_of_mem fns row "interests" hi
          refine ⟨"looking_to_connect_with", by simp [requiredFields], hl, ?_⟩
          simp only [formatStudent, rowVals, hvn, hve, hvi,
            rowDict_eq_none_of_not_mem fns row "looking_to_connect_with" hl]
          rfl
      · obtain ⟨n, hvn⟩ := rowDict_isSome_of_mem fns row "name" hn
        obtain ⟨e, hve⟩ := rowDict_isSome_of_mem fns row "email" he
        refine ⟨"interests", by simp [requiredFields], hi, ?_⟩
        simp only [formatStudent, rowVals, hvn, hve,
          rowDict_eq_none_of_not_mem fns row "interests" hi]
        rfl
    · obtain ⟨n, hvn⟩ := rowDict_isSome_of_mem fns row "name" hn
      refine ⟨"email", by simp [requiredFields], he, ?_⟩
      simp only [formatStudent, rowVals, hvn,
        rowDict_eq_none_of_not_mem fns row "email" he]
      rfl
  · refine ⟨"name", by simp [requiredFields], hn, ?_⟩
    simp only [formatStudent, rowVals,
      rowDict_eq_none_of_not_mem fns row "name" hn]
    rfl

end ADKWorkshop

namespace ADKWorkshop

/-- Claim C1: for a well-formed input file (header row naming exactly name,
email, interests, looking_to_connect_with, then N data rows, each parsing to
four newline-free field values), the roster text returned by
load_students_data is the fixed header followed by exactly one entry per
data row, in file order, each entry giving name and email on one line and
the interests and connection-preference values on the following lines
(entryOfRow). -/
theorem roster_entry_per_row (headerLine : String) (dataLines : List String)
    (hh : parseRecord headerLine = requiredFields)
    (hr : ∀ l ∈ dataLines, (parseRecord l).length = 4) :
    load_students_data (headerLine :: dataLines) =
      Except.ok (rosterHeader ++
        concatAll (dataLines.map (fun l => entryOfRow (parseRecord l)))) ∧
    (dataLines.map (fun l => entryOfRow (parseRecord l))).length = dataLines.length :=
  ⟨load_wellformed headerLine dataLines hh hr, by simp⟩

/-- Witness for C1 on a concrete one-row file. -/
theorem roster_entry_per_row_witness :
    load_students_data ["name,email,interests,looking_to_connect_with", "Alice,a@x.com,ML,eng"] =
      Except.ok (rosterHeader ++
        concatAll ((["Alice,a@x.com,ML,eng"] : List String).map (fun l => entryOfRow (parseRecord l)))) ∧
    ((["Alice,a@x.com,ML,eng"] : List String).map (fun l => entryOfRow (parseRecord l))).length =
      (["Alice,a@x.com,ML,eng"] : List String).length :=
  roster_entry_per_row "name,email,interests,looking_to_connect_with" ["Alice,a@x.com,ML,eng"]
    (by decide) (by decide)

/-- Claim C2: round-trip — for every data row of a well-formed input file
and every one of its four field values, that exact value appears unmodified
as a substring of the roster text returned by load_students_data. -/
theorem roster_field_roundtrip (headerLine : String) (dataLines : List String)
    (hh : parseRecord headerLine = requiredFields)
    (hr : ∀ l ∈ dataLines, (parseRecord l).length = 4)
    (l : String) (hl : l ∈ dataLines) (j : Nat) (hj : j < 4) :
    ∃ pre post, load_students_data (headerLine :: dataLines) =
      Except.ok (pre ++ (parseRecord l).getD j "" ++ post) := by
  obtain ⟨p, q, hpq⟩ := concatAll_decomp (fun l => entryOfRow (parseRecord l)) l dataLines hl
  obtain ⟨p2, q2, h2⟩ := entry_field_decomp (parseRecord l) j hj
  refine ⟨rosterHeader ++ p ++ p2, q2 ++ q, ?_⟩
  rw [load_wellformed headerLine dataLines hh hr, hpq, h2]
  simp [String.append_assoc]

/-- Witness for C2: the email value of the only row of a concrete file. -/
theorem roster_field_roundtrip_witness :
    ∃ pre post,
      load_students_data ["name,email,interests,looking_to_connect_with", "Alice,a@x.com,ML,eng"] =
        Except.ok (pre ++ (parseRecord "Alice,a@x.com,ML,eng").getD 1 "" ++ post) :=
  roster_field_roundtrip "name,email,interests,looking_to_connect_with" ["Alice,a@x.com,ML,eng"]
    (by decide) (by decide) "Alice,a@x.com,ML,eng" (by decide) 1 (by decide)

/-- Claim C3: the assembled instruction of root_agent is the fixed
instruction text, including the grouping rules (maximum group size 3, every
attendee in at least one group, group by shared interests) verbatim,
followed by the complete roster text. -/
theorem instruction_contains_rules_then_roster (roster : String) :
    (mkRootAgent roster).instruction = promptBefore ++ roster ++ promptAfter ∧
    (∃ p q, promptBefore = p ++ "- Each group should have MAXIMUM 3 people" ++ q) ∧
    (∃ p q, promptBefore = p ++ "- Group people with similar interests together" ++ q) ∧
    (∃ p q, promptBefore = p ++ "- Every attendee should be in at least one group" ++ q) :=
  ⟨rfl,
   ⟨"You are a workshop matchmaker. Group students into teams \nbased on their shared interests.\n\nRULES:\n- Create MULTIPLE groups\n",
    "\n- Group people with similar interests together\n- Every attendee should be in at least one group\n\nHere is the data of all workshop attendees:\n\n",
    by rfl⟩,
   ⟨"You are a workshop matchmaker. Group students into teams \nbased on their shared interests.\n\nRULES:\n- Create MULTIPLE groups\n- Each group should have MAXIMUM 3 people\n",
    "\n- Every attendee should be in at least one group\n\nHere is the data of all workshop attendees:\n\n",
    by rfl⟩,
   ⟨"You are a workshop matchmaker. Group students into teams \nbased on their shared interests.\n\nRULES:\n- Create MULTIPLE groups\n- Each group should have MAXIMUM 3 people\n- Group people with similar interests together\n",
    "\n\nHere is the data of all workshop attendees:\n\n",
    by rfl⟩⟩

/-- Claim C4: when the input CSV file does not exist or is unreadable, the
load fails and the error propagates unhandled out of module initialisation
(there is no retry or recovery path in the source). -/
theorem missing_file_fatal_at_startup :
    loadFromFile none = Except.error LoadErr.ioError ∧
    initModule none = Except.error LoadErr.ioError :=
  ⟨rfl, rfl⟩

/-- Counterexample to claim C5: a data row missing required columns (fewer
fields than the header) does NOT raise a lookup error — DictReader fills
the missing fields with restval None and the roster renders the text None
for them. -/
theorem short_row_renders_none_not_error :
    load_students_data ["name,email,interests,looking_to_connect_with", "Alice"] =
      Except.ok "WORKSHOP ATTENDEES:\n\n- Alice (None)\n  Interests: None\n  Looking to connect with: None\n\n" := by
  rfl

/-- Claim C5 as amended: the uncaught lookup failure occurs when the HEADER
row is missing a required column and at least one non-blank data row exists;
then load_students_data propagates a KeyError on a missing required column
unhandled. -/
theorem missing_header_column_keyerror (headerLine : String) (dataLines : List String)
    (hmiss : ∃ k ∈ requiredFields, ¬ k ∈ parseRecord headerLine)
    (hrow : ∃ l ∈ dataLines, parseRecord l ≠ []) :
    ∃ k ∈ requiredFields, ¬ k ∈ parseRecord headerLine ∧
      load_students_data (headerLine :: dataLines) = Except.error (LoadErr.keyError k) := by
  obtain ⟨l, hlmem, hlne⟩ := hrow
  have hmemf : parseRecord l ∈ (dataLines.map parseRecord).filter (fun r => !r.isEmpty) := by
    refine List.mem_filter.mpr ⟨List.mem_map_of_mem parseRecord hlmem, ?_⟩
    simp [List.isEmpty_iff, hlne]
  obtain ⟨r0, rest, hsplit⟩ := List.exists_cons_of_ne_nil (List.ne_nil_of_mem hmemf)
  obtain ⟨k, hk, hknot, hfmt⟩ := formatStudent_error_of_missing (parseRecord headerLine) r0 hmiss
  refine ⟨k, hk, hknot, ?_⟩
  show loadRecords ((headerLine :: dataLines).map parseRecord) = _
  rw [List.map_cons]
  simp only [loadRecords]
  rw [hsplit, List.mapM_cons, hfmt]
  rfl

/-- Witness for the amended C5: header lacking the name column. -/
theorem missing_header_column_keyerror_witness :
    ∃ k ∈ requiredFields, ¬ k ∈ parseRecord "email,interests,looking_to_connect_with" ∧
      load_students_data ["email,interests,looking_to_connect_with", "x,y,z"] =
        Except.error (LoadErr.keyError k) :=
  missing_header_column_keyerror "email,interests,looking_to_connect_with" ["x,y,z"]
    (by decide) (by decide)

/-- Counterexample to claim C6: the declared group record names its member
list field group, not members. -/
theorem group_field_named_group_not_members :
    StudentGroupFields.map Prod.fst = ["group", "description"] ∧
    ¬ ("members" ∈ StudentGroupFields.map Prod.fst) := by
  decide

/-- Claim C6 as amended: the declared structured-output shape is
GroupsResponse, a record whose field groups holds an ordered sequence of
StudentGroup; StudentGroup is a record whose field group (not members)
holds an ordered sequence of strings and whose field description holds a
string; the shape is only declared as the agent output_schema, the module
never constructs a value of it. -/
theorem declared_output_schema_shape (d : String) :
    (mkRootAgent d).output_schema = groupsResponseSchema ∧
    groupsResponseSchema.responseFields = [("groups", FieldTy.listGroup)] ∧
    groupsResponseSchema.groupFields = [("group", FieldTy.listStr), ("description", FieldTy.str)] ∧
    (∀ g : StudentGroup, g = ⟨g.group, g.description⟩) ∧
    (∀ resp : GroupsResponse, resp = ⟨resp.groups⟩) :=
  ⟨rfl, rfl, rfl, fun _ => rfl, fun _ => rfl⟩

/-- Claim C7: an input file with a header row only and zero data rows
produces a roster text containing just the fixed header line and no
attendee entries. -/
theorem header_only_yields_header_text (headerLine : String) :
    load_students_data [headerLine] = Except.ok rosterHeader ∧
    rosterHeader = "WORKSHOP ATTENDEES:\n\n" := by
  constructor
  · have h1 : load_students_data [headerLine] = Except.ok (rosterHeader ++ "") := rfl
    rw [h1, String.append_empty]
  · rfl

/-- Claim C8: the two-row Alice/Bob scenario renders exactly the expected
roster: the Alice block before the Bob block, each with its Interests and
Looking to connect with lines, and the quoted comma-containing values
parsed as single fields. -/
theorem scenario_alice_bob :
    load_students_data
      ["name,email,interests,looking_to_connect_with",
       "Alice,alice@x.com,\"ML,robotics\",\"other ML people\"",
       "Bob,bob@x.com,\"design,robotics\",\"engineers\""] =
      Except.ok "WORKSHOP ATTENDEES:\n\n- Alice (alice@x.com)\n  Interests: ML,robotics\n  Looking to connect with: other ML people\n\n- Bob (bob@x.com)\n  Interests: design,robotics\n  Looking to connect with: engineers\n\n" := by
  rfl

/-- Claim C9: the assembled instruction is exactly a fixed text before the
roster and a fixed non-empty text after it ending in the sentence Create
meaningful groups and explain why each group should connect. — the roster
is embedded in the middle of the prompt, not appended at its end. -/
theorem roster_embedded_mid_prompt (roster : String) :
    (mkRootAgent roster).instruction = promptBefore ++ roster ++ promptAfter ∧
    promptAfter = "\n\nCreate meaningful groups and explain why each group should connect." ∧
    promptAfter ≠ "" ∧ promptBefore ≠ "" :=
  ⟨rfl, rfl, by decide, by decide⟩

/-- Claim C10: noninterference — two input files whose headers both include
the four required columns and whose (non-blank) records agree one for one
on the values of those four columns render the same roster text; extra
columns have no effect. -/
theorem extra_columns_no_effect (header1 header2 : String) (data1 data2 : List String)
    (hk1 : ∀ k ∈ requiredFields, k ∈ parseRecord header1)
    (hk2 : ∀ k ∈ requiredFields, k ∈ parseRecord header2)
    (hrows : ((data1.map parseRecord).filter (fun r => !r.isEmpty)).map
        (fun r => rowVals (parseRecord header1) r) =
      ((data2.map parseRecord).filter (fun r => !r.isEmpty)).map
        (fun r => rowVals (parseRecord header2) r)) :
    load_students_data (header1 :: data1) = load_students_data (header2 :: data2) := by
  have emap : ∀ (fns : List String) (A : List (List String)),
      A.map (fun r => okEntry (rowVals fns r)) = (A.map (fun r => rowVals fns r)).map okEntry := by
    intro fns A
    rw [List.map_map]
    rfl
  show loadRecords ((header1 :: data1).map parseRecord) =
    loadRecords ((header2 :: data2).map parseRecord)
  rw [List.map_cons, List.map_cons, loadRecords_keys _ _ hk1, loadRecords_keys _ _ hk2,
    emap, emap, hrows]

/-- Witness for C10: a file with an extra shoe_size column renders the same
roster as the file without it. -/
theorem extra_columns_no_effect_witness :
    load_students_data ["name,email,interests,looking_to_connect_with", "Alice,a@x.com,ML,eng"] =
      load_students_data ["name,email,interests,looking_to_connect_with,shoe_size", "Alice,a@x.com,ML,eng,42"] :=
  extra_columns_no_effect "name,email,interests,looking_to_connect_with"
    "name,email,interests,looking_to_connect_with,shoe_size"
    ["Alice,a@x.com,ML,eng"] ["Alice,a@x.com,ML,eng,42"]
    (by decide) (by decide) (by decide)

end ADKWorkshop
